import Mathlib

/-!
Shallow embedding of the mirror-store data layer of `unravel`
(`packages/frontpage/lib/data/db/post.ts`).

The SQLite database is modelled as a `DBState` record of row lists; each
drizzle query in the source is translated into a Lean function over that
state.  Timestamps (`createdAt` and the SQL expression `JULIANDAY('now')`)
are modelled as rationals measured in julian days; SQL `REAL` arithmetic in
the ranking expression is modelled over `ℝ`.
-/

namespace Unravel

/-- Status column of `Post`/`Comment` rows: the schema's enum `live | deleted`. -/
inductive PostStatus
  | live
  | deleted
deriving DecidableEq, Repr

/-- A row of the `Post` table, with the columns selected in `post.ts`. -/
structure PostRow where
  id : Nat
  rkey : String
  cid : String
  title : String
  url : String
  createdAt : ℚ
  authorDid : String
  status : PostStatus
deriving DecidableEq, Repr

/-- A row of the `PostVote` table (columns used by `post.ts`). -/
structure VoteRow where
  id : Nat
  postId : Nat
  authorDid : String
deriving DecidableEq, Repr

/-- A row of the `Comment` table (columns used by `post.ts`). -/
structure CommentRow where
  id : Nat
  postId : Nat
  authorDid : String
  status : PostStatus
deriving DecidableEq, Repr

/-- The mirror-store database state: the tables touched by `post.ts`. -/
structure DBState where
  posts : List PostRow
  votes : List VoteRow
  comments : List CommentRow
  consumedOffsets : List Nat
deriving DecidableEq, Repr

/-- `votesSubQuery`: `PostVote` grouped by `postId` with
`coalesce(count(PostVote.id), 1)`.  A group row exists only for posts with at
least one vote, so the value is `some n` (with `n ≥ 1`) when the post has `n`
vote rows and `none` when it has no vote row (a LEFT JOIN against the
subquery then yields NULL). -/
def voteCountOpt (s : DBState) (postId : Nat) : Option Nat :=
  let n := (s.votes.filter (fun v => decide (v.postId = postId))).length
  if n = 0 then none else some n

/-- `commentCountSubQuery`: live comments grouped by `postId`; `some n` when
the post has `n` live comments, `none` when it has none (LEFT JOIN NULL). -/
def commentCountOpt (s : DBState) (postId : Nat) : Option Nat :=
  let n :=
    (s.comments.filter
      (fun c => decide (c.postId = postId ∧ c.status = PostStatus.live))).length
  if n = 0 then none else some n

/-- `buildUserHasVotedQuery`: the postIds of the current user's votes; when
no user is logged in the WHERE clause is `false`, so the subquery is empty. -/
def userHasVotedPostIds (user : Option String) (s : DBState) : List Nat :=
  match user with
  | none => []
  | some did => (s.votes.filter (fun v => decide (v.authorDid = did))).map (fun v => v.postId)

/-- `Boolean(row.userHasVoted)`: whether the LEFT JOIN against the
`hasVoted` subquery matched this post. -/
def userHasVotedB (user : Option String) (s : DBState) (postId : Nat) : Bool :=
  (userHasVotedPostIds user s).contains postId

/-- Elapsed hours from `createdAt` to `now`, both in julian days:
`(JULIANDAY('now') - JULIANDAY(createdAt)) * 24`. -/
def hoursSince (createdAt now : ℚ) : ℚ :=
  (now - createdAt) * 24

/-- The `rank` SQL expression of `getFrontpagePosts`:
`CAST(COALESCE(vote.voteCount, 1) AS REAL) /
 pow((JULIANDAY('now') - JULIANDAY(createdAt)) * 24 + 2, 1.8)`. -/
noncomputable def rank (now : ℚ) (s : DBState) (p : PostRow) : ℝ :=
  (((voteCountOpt s p.id).getD 1 : ℕ) : ℝ) /
    ((((now : ℝ) - (p.createdAt : ℝ)) * 24 + 2) ^ (1.8 : ℝ))

/-- The row shape returned by `getFrontpagePosts` and `getUserPosts`. -/
structure FrontpageRow where
  id : Nat
  rkey : String
  cid : String
  title : String
  url : String
  createdAt : ℚ
  authorDid : String
  voteCount : Nat
  commentCount : Nat
  userHasVoted : Bool
deriving DecidableEq, Repr

/-- The `rows.map (row => ...)` projection shared by `getFrontpagePosts` and
`getUserPosts`: `voteCount: row.voteCount ?? 1`, `commentCount: row.commentCount ?? 0`,
`userHasVoted: Boolean(row.userHasVoted)`. -/
def frontpageOutput (user : Option String) (s : DBState) (p : PostRow) : FrontpageRow :=
  { id := p.id, rkey := p.rkey, cid := p.cid, title := p.title, url := p.url,
    createdAt := p.createdAt, authorDid := p.authorDid,
    voteCount := (voteCountOpt s p.id).getD 1,
    commentCount := (commentCountOpt s p.id).getD 0,
    userHasVoted := userHasVotedB user s p.id }

/-- The `WHERE status = 'live'` filter of `getFrontpagePosts`. -/
def livePosts (s : DBState) : List PostRow :=
  s.posts.filter (fun p => decide (p.status = PostStatus.live))

/-- The live posts in the order produced by `ORDER BY rank DESC`. -/
noncomputable def frontpageSorted (now : ℚ) (s : DBState) : List PostRow :=
  (livePosts s).mergeSort
    (fun a b => @decide (rank now s b ≤ rank now s a) (Real.decidableLE _ _))

/-- `getFrontpagePosts`: live posts ordered by descending rank, projected to
the output row shape. -/
noncomputable def getFrontpagePosts (now : ℚ) (user : Option String) (s : DBState) :
    List FrontpageRow :=
  (frontpageSorted now s).map (frontpageOutput user s)

/-- `getUserPosts`: the author's live posts, projected to the output shape. -/
def getUserPosts (user : Option String) (userDid : String) (s : DBState) :
    List FrontpageRow :=
  (s.posts.filter
      (fun p => decide (p.authorDid = userDid ∧ p.status = PostStatus.live))).map
    (frontpageOutput user s)

/-- The row shape returned by `getPost`: all `Post` columns plus the
aggregates. -/
structure PostDetail where
  id : Nat
  rkey : String
  cid : String
  title : String
  url : String
  createdAt : ℚ
  authorDid : String
  status : PostStatus
  commentCount : Nat
  voteCount : Nat
  userHasVoted : Bool
deriving DecidableEq, Repr

/-- `getPost`: first row (`LIMIT 1`) matching `authorDid` and `rkey`, with
`commentCount ?? 0`, `voteCount ?? 1`, `Boolean(hasVoted)`; `null` when no
row matches. -/
def getPost (user : Option String) (authorDid rkey : String) (s : DBState) :
    Option PostDetail :=
  match (s.posts.filter (fun p => decide (p.authorDid = authorDid ∧ p.rkey = rkey))).head? with
  | none => none
  | some p =>
    some { id := p.id, rkey := p.rkey, cid := p.cid, title := p.title, url := p.url,
           createdAt := p.createdAt, authorDid := p.authorDid, status := p.status,
           commentCount := (commentCountOpt s p.id).getD 0,
           voteCount := (voteCountOpt s p.id).getD 1,
           userHasVoted := userHasVotedB user s p.id }

/-- `uncached_doesPostExist`: `Boolean(row[0])` of a `SELECT id ... LIMIT 1`
filtered by `authorDid` and `rkey` only (no status condition). -/
def uncached_doesPostExist (authorDid rkey : String) (s : DBState) : Bool :=
  ((s.posts.filter (fun p => decide (p.authorDid = authorDid ∧ p.rkey = rkey))).head?).isSome

/-- Modelled from the spec: the schema module (`@/lib/schema`, not under
`src/`) declares the `(authorDid, rkey)` pair unique for `Post` ("Invariant:
(authorDid, rkey) pair is unique"; `createPost` "fails with DuplicateKey if
(authorDid, rkey) already exists").  Inserting a duplicate pair raises a
constraint error, which aborts the enclosing transaction. -/
def insertPost (s : DBState) (p : PostRow) : Except String DBState :=
  if ∃ q ∈ s.posts, q.authorDid = p.authorDid ∧ q.rkey = p.rkey then
    Except.error "UNIQUE constraint failed: posts.author_did, posts.rkey"
  else
    Except.ok { s with posts := s.posts ++ [p] }

/-- Modelled from the spec: the schema module (not under `src/`) declares the
`ConsumedOffset.offset` column unique ("for any offset value, at most one
ConsumedOffset row exists"; `recordOffset` "fails with AlreadyConsumed if
offset exists").  Inserting an already-recorded offset raises a constraint
error, which aborts the enclosing transaction. -/
def insertConsumedOffset (s : DBState) (offset : Nat) : Except String DBState :=
  if offset ∈ s.consumedOffsets then
    Except.error "UNIQUE constraint failed: consumed_offsets.offset"
  else
    Except.ok { s with consumedOffsets := s.consumedOffsets ++ [offset] }

/-- Autoincrement id for a freshly inserted `Post` row. -/
def freshPostId (s : DBState) : Nat :=
  (s.posts.map (fun p => p.id)).foldr max 0 + 1

/-- `CreatePostInput` of `unauthed_createPost` (the `post` payload flattened
to the fields the insert uses). -/
structure CreatePostInput where
  title : String
  url : String
  createdAt : ℚ
  authorDid : String
  rkey : String
  cid : String
  offset : Nat
deriving DecidableEq, Repr

/-- The `Post` row built by the insert of `unauthed_createPost`.  The status
column is not set by the insert; modelled from the spec, its default is
`live` ("created by the Offset Event Consumer on a create event" with
lifecycle starting at `live`). -/
def newPostRow (i : CreatePostInput) (s : DBState) : PostRow :=
  { id := freshPostId s, rkey := i.rkey, cid := i.cid, authorDid := i.authorDid,
    title := i.title, url := i.url, createdAt := i.createdAt,
    status := PostStatus.live }

/-- The `db.transaction` body of `unauthed_createPost`: insert the `Post`
row, then insert the `ConsumedOffset` row; an error in either step aborts
the whole transaction. -/
def createPostTx (i : CreatePostInput) (s : DBState) : Except String DBState :=
  match insertPost s (newPostRow i s) with
  | Except.error e => Except.error e
  | Except.ok s1 => insertConsumedOffset s1 i.offset

/-- The database state after `unauthed_createPost`: the committed
transaction result, or the unchanged state when the transaction aborted. -/
def unauthed_createPost (i : CreatePostInput) (s : DBState) : DBState :=
  match createPostTx i s with
  | Except.ok s1 => s1
  | Except.error _ => s

/-- Environment of the notification step of `unauthed_createPost`, covering
every path of the source: `DISCORD_WEBHOOK_URL` unset; `getBlueskyProfile`
rejecting (its fetch rejects or its zod `ProfileResponse.parse` throws); the
webhook `fetch` itself rejecting; the webhook response `ok`; the webhook
response not `ok`. -/
inductive WebhookEnv
  | noUrl
  | profileThrow
  | fetchThrow
  | respOk
  | respFail
deriving DecidableEq, Repr

/-- Observable outcome of one `unauthed_createPost` call: the database
state when the call ends, whether the webhook POST was attempted, the
`console.error` messages logged, and the error the call throws
(`none` means the call returns normally). -/
structure CreateCallResult where
  db : DBState
  notified : Bool
  loggedErrors : List String
  thrown : Option String
deriving DecidableEq, Repr

/-- `unauthed_createPost` in full.  The transaction runs first; its failure
is thrown and nothing else runs.  Only after it commits does the
notification step run: with no webhook URL an error is logged and the call
returns; there is no try/catch around the notification, so a rejected
profile lookup or a rejected webhook fetch is thrown out of the call; a
response that is not `ok` is only logged; in every case the committed
database state is left as the transaction produced it. -/
def unauthed_createPost_run (i : CreatePostInput) (env : WebhookEnv) (s : DBState) :
    CreateCallResult :=
  match createPostTx i s with
  | Except.error e =>
    { db := s, notified := false, loggedErrors := [], thrown := some e }
  | Except.ok s1 =>
    match env with
    | WebhookEnv.noUrl =>
      { db := s1, notified := false,
        loggedErrors := ["Cannot alert of new post: No DISCORD_WEBHOOK_URL set"],
        thrown := none }
    | WebhookEnv.profileThrow =>
      { db := s1, notified := false, loggedErrors := [],
        thrown := some "getBlueskyProfile rejected" }
    | WebhookEnv.fetchThrow =>
      { db := s1, notified := true, loggedErrors := [],
        thrown := some "webhook fetch rejected" }
    | WebhookEnv.respOk =>
      { db := s1, notified := true, loggedErrors := [], thrown := none }
    | WebhookEnv.respFail =>
      { db := s1, notified := true,
        loggedErrors := ["Failed to alert of new post"], thrown := none }

/-- `DeletePostInput` of `unauthed_deletePost`: only `rkey` and `offset`. -/
structure DeletePostInput where
  rkey : String
  offset : Nat
deriving DecidableEq, Repr

/-- The `UPDATE posts SET status = 'deleted' WHERE rkey = ?` statement of
`unauthed_deletePost`: it matches on `rkey` alone, touching every row whose
`rkey` equals the argument. -/
def markDeletedByRkey (rkey : String) (posts : List PostRow) : List PostRow :=
  posts.map (fun p => if p.rkey = rkey then { p with status := PostStatus.deleted } else p)

/-- The `db.transaction` body of `unauthed_deletePost`: the UPDATE above,
then insert the `ConsumedOffset` row; an error aborts the whole
transaction. -/
def deletePostTx (i : DeletePostInput) (s : DBState) : Except String DBState :=
  let s1 : DBState := { s with posts := markDeletedByRkey i.rkey s.posts }
  insertConsumedOffset s1 i.offset

/-- The database state after `unauthed_deletePost`: the committed
transaction result, or the unchanged state when the transaction aborted. -/
def unauthed_deletePost (i : DeletePostInput) (s : DBState) : DBState :=
  match deletePostTx i s with
  | Except.ok s1 => s1
  | Except.error _ => s

/-- The ranking formula as the spec states it:
`score(post, now) = voteCount / ((hoursSince(post.createdAt, now) + 2) ^ 1.8)`.
Written from the spec's words, for refinement comparison with `rank`. -/
noncomputable def scoreSpec (voteCount : ℝ) (hours : ℝ) : ℝ :=
  voteCount / (hours + 2) ^ (1.8 : ℝ)

/-! ### Concrete fixture states for witnesses and counterexamples -/

/-- An empty mirror store. -/
def dbEmpty : DBState := { posts := [], votes := [], comments := [], consumedOffsets := [] }

/-- A concrete Create event. -/
def iW1 : CreatePostInput :=
  { title := "Hello", url := "https://example.com", createdAt := 0,
    authorDid := "did:plc:alice", rkey := "3k2x", cid := "cid1", offset := 3 }

/-- A store that has already consumed offset 5. -/
def dbW2 : DBState := { posts := [], votes := [], comments := [], consumedOffsets := [5] }

/-- A Create event whose offset 5 is already consumed in `dbW2`. -/
def iW2 : CreatePostInput :=
  { title := "Hello", url := "https://example.com", createdAt := 0,
    authorDid := "did:plc:alice", rkey := "3k2x", cid := "cid1", offset := 5 }

/-- Alice's post with record key `samekey`. -/
def pA3 : PostRow :=
  { id := 1, rkey := "samekey", cid := "c1", title := "t1", url := "u1",
    createdAt := 0, authorDid := "did:plc:alice", status := PostStatus.live }

/-- Bob's post sharing the record key `samekey` with Alice's. -/
def pB3 : PostRow :=
  { id := 2, rkey := "samekey", cid := "c2", title := "t2", url := "u2",
    createdAt := 0, authorDid := "did:plc:bob", status := PostStatus.live }

/-- A store holding two live posts by different authors with the same rkey. -/
def dbC3 : DBState := { posts := [pA3, pB3], votes := [], comments := [], consumedOffsets := [] }

/-- A store holding one live post with rkey `a`. -/
def dbW8 : DBState :=
  { posts := [{ id := 1, rkey := "a", cid := "c", title := "t", url := "u",
                createdAt := 0, authorDid := "did:plc:alice", status := PostStatus.live }],
    votes := [], comments := [], consumedOffsets := [] }

/-- The state committed by `createPostTx iW1 dbEmpty`. -/
def s1W9 : DBState :=
  { posts := [newPostRow iW1 dbEmpty], votes := [], comments := [], consumedOffsets := [3] }

/-- A live post by Alice with rkey `3k2x`. -/
def pW4 : PostRow :=
  { id := 1, rkey := "3k2x", cid := "c", title := "t", url := "u",
    createdAt := 1, authorDid := "did:plc:alice", status := PostStatus.live }

/-- A store holding only `pW4`. -/
def dbW4 : DBState := { posts := [pW4], votes := [], comments := [], consumedOffsets := [] }

/-- A live post with no votes. -/
def pW5 : PostRow :=
  { id := 1, rkey := "r", cid := "c", title := "t", url := "u",
    createdAt := 1, authorDid := "a", status := PostStatus.live }

/-- A store holding only `pW5`, with no vote rows. -/
def dbW5 : DBState := { posts := [pW5], votes := [], comments := [], consumedOffsets := [] }

/-- The `getPost` result for `pW5` in `dbW5`. -/
def oW5 : PostDetail :=
  { id := 1, rkey := "r", cid := "c", title := "t", url := "u",
    createdAt := 1, authorDid := "a", status := PostStatus.live,
    commentCount := 0, voteCount := 1, userHasVoted := false }

/-- The front-page row projected from `pW5` in `dbW5`. -/
def fpW5 : FrontpageRow :=
  { id := 1, rkey := "r", cid := "c", title := "t", url := "u",
    createdAt := 1, authorDid := "a",
    voteCount := 1, commentCount := 0, userHasVoted := false }

/-- A post created at julian day 1 with no votes. -/
def p61 : PostRow :=
  { id := 1, rkey := "k1", cid := "c1", title := "t1", url := "u1",
    createdAt := 1, authorDid := "a", status := PostStatus.live }

/-- A post created at julian day 0 (older than `p61`) with no votes. -/
def p62 : PostRow :=
  { id := 2, rkey := "k2", cid := "c2", title := "t2", url := "u2",
    createdAt := 0, authorDid := "a", status := PostStatus.live }

/-- A post created at julian day 1 (same age as `p61`) with two votes. -/
def p63 : PostRow :=
  { id := 3, rkey := "k3", cid := "c3", title := "t3", url := "u3",
    createdAt := 1, authorDid := "b", status := PostStatus.live }

/-- A store holding `p61`, `p62`, `p63`, where only `p63` has votes. -/
def dbW6 : DBState :=
  { posts := [p61, p62, p63],
    votes := [{ id := 1, postId := 3, authorDid := "v" }, { id := 2, postId := 3, authorDid := "w" }],
    comments := [], consumedOffsets := [] }

/-! ### Transaction characterization lemmas -/

theorem insertPost_ok (s : DBState) (p : PostRow)
    (h : ¬∃ q ∈ s.posts, q.authorDid = p.authorDid ∧ q.rkey = p.rkey) :
    insertPost s p = Except.ok { s with posts := s.posts ++ [p] } := by
  unfold insertPost
  rw [if_neg h]

theorem insertPost_err (s : DBState) (p : PostRow)
    (h : ∃ q ∈ s.posts, q.authorDid = p.authorDid ∧ q.rkey = p.rkey) :
    insertPost s p =
      Except.error "UNIQUE constraint failed: posts.author_did, posts.rkey" := by
  unfold insertPost
  rw [if_pos h]

theorem insertConsumedOffset_ok (s : DBState) (offset : Nat)
    (h : offset ∉ s.consumedOffsets) :
    insertConsumedOffset s offset =
      Except.ok { s with consumedOffsets := s.consumedOffsets ++ [offset] } := by
  unfold insertConsumedOffset
  rw [if_neg h]

theorem insertConsumedOffset_err (s : DBState) (offset : Nat)
    (h : offset ∈ s.consumedOffsets) :
    insertConsumedOffset s offset =
      Except.error "UNIQUE constraint failed: consumed_offsets.offset" := by
  unfold insertConsumedOffset
  rw [if_pos h]

theorem createPostTx_ok (i : CreatePostInput) (s : DBState)
    (hpair : ¬∃ q ∈ s.posts, q.authorDid = i.authorDid ∧ q.rkey = i.rkey)
    (hoff : i.offset ∉ s.consumedOffsets) :
    createPostTx i s =
      Except.ok { s with posts := s.posts ++ [newPostRow i s],
                         consumedOffsets := s.consumedOffsets ++ [i.offset] } := by
  have h1 := insertPost_ok s (newPostRow i s) (by simpa [newPostRow] using hpair)
  unfold createPostTx
  rw [h1]
  exact insertConsumedOffset_ok _ _ hoff

theorem createPostTx_err_of_pair (i : CreatePostInput) (s : DBState)
    (hpair : ∃ q ∈ s.posts, q.authorDid = i.authorDid ∧ q.rkey = i.rkey) :
    createPostTx i s =
      Except.error "UNIQUE constraint failed: posts.author_did, posts.rkey" := by
  have h1 := insertPost_err s (newPostRow i s) (by simpa [newPostRow] using hpair)
  unfold createPostTx
  rw [h1]

theorem createPostTx_err_of_offset (i : CreatePostInput) (s : DBState)
    (hpair : ¬∃ q ∈ s.posts, q.authorDid = i.authorDid ∧ q.rkey = i.rkey)
    (hoff : i.offset ∈ s.consumedOffsets) :
    createPostTx i s =
      Except.error "UNIQUE constraint failed: consumed_offsets.offset" := by
  have h1 := insertPost_ok s (newPostRow i s) (by simpa [newPostRow] using hpair)
  unfold createPostTx
  rw [h1]
  exact insertConsumedOffset_err _ _ hoff

theorem unauthed_createPost_of_ok (i : CreatePostInput) (s t : DBState)
    (h : createPostTx i s = Except.ok t) : unauthed_createPost i s = t := by
  unfold unauthed_createPost
  rw [h]

theorem unauthed_createPost_of_err (i : CreatePostInput) (s : DBState) (e : String)
    (h : createPostTx i s = Except.error e) : unauthed_createPost i s = s := by
  unfold unauthed_createPost
  rw [h]

theorem deletePostTx_ok (i : DeletePostInput) (s : DBState)
    (hoff : i.offset ∉ s.consumedOffsets) :
    deletePostTx i s =
      Except.ok { s with posts := markDeletedByRkey i.rkey s.posts,
                         consumedOffsets := s.consumedOffsets ++ [i.offset] } := by
  unfold deletePostTx
  exact insertConsumedOffset_ok _ _ hoff

theorem unauthed_deletePost_of_ok (i : DeletePostInput) (s : DBState)
    (hoff : i.offset ∉ s.consumedOffsets) :
    unauthed_deletePost i s =
      { s with posts := markDeletedByRkey i.rkey s.posts,
               consumedOffsets := s.consumedOffsets ++ [i.offset] } := by
  unfold unauthed_deletePost
  rw [deletePostTx_ok i s hoff]

/-! ### Read-query characterization lemmas -/

theorem one_le_voteCountOpt_getD (s : DBState) (i : Nat) :
    1 ≤ (voteCountOpt s i).getD 1 := by
  simp only [voteCountOpt]
  split
  · simp
  · next h =>
    simp only [Option.getD_some]
    omega

theorem voteCountOpt_eq_none (s : DBState) (i : Nat)
    (h : (s.votes.filter (fun v => decide (v.postId = i))).length = 0) :
    voteCountOpt s i = none := by
  simp [voteCountOpt, h]

theorem mem_getFrontpagePosts (now : ℚ) (user : Option String) (s : DBState) (o : FrontpageRow) :
    o ∈ getFrontpagePosts now user s ↔
      ∃ p, p ∈ s.posts ∧ p.status = PostStatus.live ∧ frontpageOutput user s p = o := by
  unfold getFrontpagePosts frontpageSorted livePosts
  rw [List.mem_map]
  constructor
  · rintro ⟨p, hp, rfl⟩
    have hp2 := List.mem_mergeSort.1 hp
    rcases List.mem_filter.1 hp2 with ⟨hmem, hdec⟩
    exact ⟨p, hmem, of_decide_eq_true hdec, rfl⟩
  · rintro ⟨p, hmem, hlive, rfl⟩
    exact ⟨p, List.mem_mergeSort.2 (List.mem_filter.2 ⟨hmem, by simp [hlive]⟩), rfl⟩

theorem mem_getUserPosts (user : Option String) (d : String) (s : DBState) (o : FrontpageRow) :
    o ∈ getUserPosts user d s ↔
      ∃ p, p ∈ s.posts ∧ p.authorDid = d ∧ p.status = PostStatus.live
        ∧ frontpageOutput user s p = o := by
  unfold getUserPosts
  rw [List.mem_map]
  constructor
  · rintro ⟨p, hp, rfl⟩
    rcases List.mem_filter.1 hp with ⟨hmem, hdec⟩
    rcases of_decide_eq_true hdec with ⟨h1, h2⟩
    exact ⟨p, hmem, h1, h2, rfl⟩
  · rintro ⟨p, hmem, h1, h2, rfl⟩
    exact ⟨p, List.mem_filter.2 ⟨hmem, by simp [h1, h2]⟩, rfl⟩

theorem getPost_eq_some_elim (user : Option String) (d r : String) (s : DBState) (o : PostDetail)
    (h : getPost user d r s = some o) :
    ∃ p ∈ s.posts, p.authorDid = d ∧ p.rkey = r ∧ o.id = p.id ∧ o.status = p.status
      ∧ o.voteCount = (voteCountOpt s p.id).getD 1 := by
  unfold getPost at h
  cases hh : (s.posts.filter (fun p => decide (p.authorDid = d ∧ p.rkey = r))).head? with
  | none =>
    rw [hh] at h
    cases h
  | some p =>
    rw [hh] at h
    injection h with hinj
    have hp : p ∈ s.posts.filter (fun p => decide (p.authorDid = d ∧ p.rkey = r)) :=
      List.mem_of_mem_head? (hh ▸ rfl)
    rcases List.mem_filter.1 hp with ⟨hmem, hdec⟩
    rcases of_decide_eq_true hdec with ⟨h1, h2⟩
    exact ⟨p, hmem, h1, h2, by rw [← hinj], by rw [← hinj], by rw [← hinj]⟩

theorem getPost_isSome (user : Option String) (d r : String) (s : DBState)
    (h : ∃ p ∈ s.posts, p.authorDid = d ∧ p.rkey = r) :
    ∃ o, getPost user d r s = some o := by
  rcases h with ⟨p, hp, h1, h2⟩
  have hne : s.posts.filter (fun p => decide (p.authorDid = d ∧ p.rkey = r)) ≠ [] := by
    intro hnil
    have hmem : p ∈ s.posts.filter (fun p => decide (p.authorDid = d ∧ p.rkey = r)) :=
      List.mem_filter.2 ⟨hp, by simp [h1, h2]⟩
    rw [hnil] at hmem
    exact List.not_mem_nil p hmem
  unfold getPost
  cases hh : (s.posts.filter (fun p => decide (p.authorDid = d ∧ p.rkey = r))).head? with
  | none =>
    exact absurd (List.head?_eq_none_iff.1 hh) hne
  | some q =>
    exact ⟨_, rfl⟩

theorem markDeletedByRkey_status (r : String) (posts : List PostRow) :
    ∀ q ∈ markDeletedByRkey r posts, q.rkey = r → q.status = PostStatus.deleted := by
  intro q hq hr
  unfold markDeletedByRkey at hq
  rcases List.mem_map.1 hq with ⟨p, hp, hpq⟩
  by_cases hpr : p.rkey = r
  · rw [if_pos hpr] at hpq
    rw [← hpq]
  · rw [if_neg hpr] at hpq
    rw [← hpq] at hr
    exact absurd hr hpr

theorem markDeletedByRkey_mem (r : String) (posts : List PostRow) (p : PostRow)
    (hp : p ∈ posts) (hr : p.rkey = r) :
    { p with status := PostStatus.deleted } ∈ markDeletedByRkey r posts := by
  unfold markDeletedByRkey
  exact List.mem_map.2 ⟨p, hp, by rw [if_pos hr]⟩

/-! ### Claim theorems -/

/-- Claim C2: for every Create event processed by `unauthed_createPost`, the
`Post` insert and the `ConsumedOffset` insert happen in the same atomic unit
of work: after processing, either both rows are committed or the state is
unchanged; in particular, when the `ConsumedOffset` insert fails because the
offset is already recorded, the `Post` insert does not persist. -/
theorem C2_create_atomicity (i : CreatePostInput) (s : DBState) :
    ((createPostTx i s = Except.ok (unauthed_createPost i s)
        ∧ (unauthed_createPost i s).posts = s.posts ++ [newPostRow i s]
        ∧ (unauthed_createPost i s).consumedOffsets = s.consumedOffsets ++ [i.offset])
      ∨ ((∃ e, createPostTx i s = Except.error e) ∧ unauthed_createPost i s = s))
    ∧ (i.offset ∈ s.consumedOffsets → unauthed_createPost i s = s) := by
  have main :
      (createPostTx i s = Except.ok (unauthed_createPost i s)
        ∧ (unauthed_createPost i s).posts = s.posts ++ [newPostRow i s]
        ∧ (unauthed_createPost i s).consumedOffsets = s.consumedOffsets ++ [i.offset])
      ∨ ((∃ e, createPostTx i s = Except.error e) ∧ unauthed_createPost i s = s) := by
    by_cases hpair : ∃ q ∈ s.posts, q.authorDid = i.authorDid ∧ q.rkey = i.rkey
    · right
      have he := createPostTx_err_of_pair i s hpair
      exact ⟨⟨_, he⟩, unauthed_createPost_of_err i s _ he⟩
    · by_cases hoff : i.offset ∈ s.consumedOffsets
      · right
        have he := createPostTx_err_of_offset i s hpair hoff
        exact ⟨⟨_, he⟩, unauthed_createPost_of_err i s _ he⟩
      · left
        have hok := createPostTx_ok i s hpair hoff
        have hu := unauthed_createPost_of_ok i s _ hok
        rw [hu]
        exact ⟨hok, rfl, rfl⟩
  refine ⟨main, fun hoff => ?_⟩
  by_cases hpair : ∃ q ∈ s.posts, q.authorDid = i.authorDid ∧ q.rkey = i.rkey
  · exact unauthed_createPost_of_err i s _ (createPostTx_err_of_pair i s hpair)
  · exact unauthed_createPost_of_err i s _ (createPostTx_err_of_offset i s hpair hoff)

/-- Claim C10: `uncached_doesPostExist` returns `true` exactly when some
`Post` row with the given `(authorDid, rkey)` pair exists, with no condition
on its status — so a soft-deleted post still counts as existing. -/
theorem C10_doesPostExist_ignores_status (d r : String) (s : DBState) :
    uncached_doesPostExist d r s = true ↔ ∃ p ∈ s.posts, p.authorDid = d ∧ p.rkey = r := by
  unfold uncached_doesPostExist
  rw [List.head?_isSome]
  constructor
  · intro h
    rcases List.exists_mem_of_ne_nil _ h with ⟨p, hp⟩
    rcases List.mem_filter.1 hp with ⟨hmem, hdec⟩
    exact ⟨p, hmem, of_decide_eq_true hdec⟩
  · rintro ⟨p, hmem, h1, h2⟩
    intro hnil
    have hp : p ∈ (s.posts.filter (fun p => decide (p.authorDid = d ∧ p.rkey = r))) :=
      List.mem_filter.2 ⟨hmem, by simp [h1, h2]⟩
    rw [hnil] at hp
    exact (List.not_mem_nil p) hp

/-- Claim C2 witness: with offset 5 already consumed, the whole call leaves
the store unchanged — in particular the Post insert does not persist. -/
theorem C2_witness : unauthed_createPost iW2 dbW2 = dbW2 :=
  (C2_create_atomicity iW2 dbW2).2 (by decide)

/-- Claim C1: applying the same Create event twice (same offset) to a store
that had neither the `(authorDid, rkey)` pair nor the offset leaves exactly
one matching `Post` row and exactly one `ConsumedOffset` row for that
offset; the second application's transaction errors and has no side
effects. -/
theorem C1_idempotent_replay (i : CreatePostInput) (s : DBState)
    (hpair : ¬∃ p ∈ s.posts, p.authorDid = i.authorDid ∧ p.rkey = i.rkey)
    (hoff : i.offset ∉ s.consumedOffsets) :
    ((unauthed_createPost i (unauthed_createPost i s)).posts.filter
        (fun p => decide (p.authorDid = i.authorDid ∧ p.rkey = i.rkey))).length = 1
    ∧ ((unauthed_createPost i (unauthed_createPost i s)).consumedOffsets.filter
        (fun o => decide (o = i.offset))).length = 1
    ∧ (∃ e, createPostTx i (unauthed_createPost i s) = Except.error e)
    ∧ unauthed_createPost i (unauthed_createPost i s) = unauthed_createPost i s := by
  have hok := createPostTx_ok i s hpair hoff
  have hs1 := unauthed_createPost_of_ok i s _ hok
  have hpair2 : ∃ q ∈ (unauthed_createPost i s).posts,
      q.authorDid = i.authorDid ∧ q.rkey = i.rkey := by
    rw [hs1]
    exact ⟨newPostRow i s, by simp [newPostRow]⟩
  have herr := createPostTx_err_of_pair i _ hpair2
  have hs2 := unauthed_createPost_of_err i _ _ herr
  have h0 : s.posts.filter (fun p => decide (p.authorDid = i.authorDid ∧ p.rkey = i.rkey)) = [] := by
    rw [List.filter_eq_nil_iff]
    intro p hp hdec
    exact hpair ⟨p, hp, of_decide_eq_true hdec⟩
  have h1 : s.consumedOffsets.filter (fun o => decide (o = i.offset)) = [] := by
    rw [List.filter_eq_nil_iff]
    intro o ho hdec
    have := of_decide_eq_true hdec
    exact hoff (this ▸ ho)
  refine ⟨?_, ?_, ⟨_, herr⟩, hs2⟩
  · rw [hs2, hs1]
    have hgoal : (List.filter (fun p => decide (p.authorDid = i.authorDid ∧ p.rkey = i.rkey))
        (s.posts ++ [newPostRow i s])).length = 1 := by
      rw [List.filter_append, h0]
      simp [newPostRow]
    exact hgoal
  · rw [hs2, hs1]
    have hgoal : (List.filter (fun o => decide (o = i.offset))
        (s.consumedOffsets ++ [i.offset])).length = 1 := by
      rw [List.filter_append, h1]
      simp
    exact hgoal

/-- Claim C1 witness: the concrete Create event `iW1` replayed twice on the
empty store. -/
theorem C1_witness :
    ((unauthed_createPost iW1 (unauthed_createPost iW1 dbEmpty)).posts.filter
        (fun p => decide (p.authorDid = iW1.authorDid ∧ p.rkey = iW1.rkey))).length = 1
    ∧ ((unauthed_createPost iW1 (unauthed_createPost iW1 dbEmpty)).consumedOffsets.filter
        (fun o => decide (o = iW1.offset))).length = 1
    ∧ (∃ e, createPostTx iW1 (unauthed_createPost iW1 dbEmpty) = Except.error e)
    ∧ unauthed_createPost iW1 (unauthed_createPost iW1 dbEmpty) = unauthed_createPost iW1 dbEmpty :=
  C1_idempotent_replay iW1 dbEmpty (by decide) (by decide)

/-- Claim C3 counterexample: `unauthed_deletePost` matches on `rkey` alone,
so deleting rkey `samekey` also flips Bob's post, whose `(authorDid, rkey)`
pair differs from Alice's — it does not keep its status. -/
theorem C3_counterexample :
    pB3.authorDid ≠ pA3.authorDid
    ∧ pB3.status = PostStatus.live
    ∧ (unauthed_deletePost { rkey := "samekey", offset := 7 } dbC3).posts =
        [{ pA3 with status := PostStatus.deleted }, { pB3 with status := PostStatus.deleted }] := by
  decide

/-- Claim C3 as amended: for a Delete event whose offset is fresh,
`unauthed_deletePost` soft-deletes every post whose `rkey` equals the
event's `rkey` (regardless of author), and every post whose `rkey` differs
keeps its status and all other fields unchanged. -/
theorem C3_amended_delete_by_rkey (i : DeletePostInput) (s : DBState)
    (hoff : i.offset ∉ s.consumedOffsets) :
    (∀ p ∈ s.posts, p.rkey ≠ i.rkey → p ∈ (unauthed_deletePost i s).posts)
    ∧ (∀ p ∈ s.posts, p.rkey = i.rkey →
        { p with status := PostStatus.deleted } ∈ (unauthed_deletePost i s).posts)
    ∧ (unauthed_deletePost i s).posts.length = s.posts.length
    ∧ (∀ q ∈ (unauthed_deletePost i s).posts, q.rkey ≠ i.rkey → q ∈ s.posts) := by
  rw [unauthed_deletePost_of_ok i s hoff]
  refine ⟨?_, ?_, ?_, ?_⟩
  · intro p hp hne
    show p ∈ markDeletedByRkey i.rkey s.posts
    unfold markDeletedByRkey
    exact List.mem_map.2 ⟨p, hp, by rw [if_neg hne]⟩
  · intro p hp heq
    show _ ∈ markDeletedByRkey i.rkey s.posts
    unfold markDeletedByRkey
    exact List.mem_map.2 ⟨p, hp, by rw [if_pos heq]⟩
  · show (markDeletedByRkey i.rkey s.posts).length = s.posts.length
    unfold markDeletedByRkey
    exact List.length_map _ _
  · intro q hq hne
    have hq2 : q ∈ markDeletedByRkey i.rkey s.posts := hq
    unfold markDeletedByRkey at hq2
    rcases List.mem_map.1 hq2 with ⟨p, hp, hpq⟩
    by_cases hpr : p.rkey = i.rkey
    · rw [if_pos hpr] at hpq
      exfalso
      apply hne
      rw [← hpq]
      simpa using hpr
    · rw [if_neg hpr] at hpq
      rw [← hpq]
      exact hp

/-- Claim C3 (amended) witness: deleting rkey `samekey` in the two-post
store `dbC3`. -/
theorem C3_amended_witness :
    (∀ p ∈ dbC3.posts, p.rkey ≠ "samekey" →
        p ∈ (unauthed_deletePost { rkey := "samekey", offset := 7 } dbC3).posts)
    ∧ (∀ p ∈ dbC3.posts, p.rkey = "samekey" →
        { p with status := PostStatus.deleted } ∈
          (unauthed_deletePost { rkey := "samekey", offset := 7 } dbC3).posts)
    ∧ (unauthed_deletePost { rkey := "samekey", offset := 7 } dbC3).posts.length = dbC3.posts.length
    ∧ (∀ q ∈ (unauthed_deletePost { rkey := "samekey", offset := 7 } dbC3).posts,
        q.rkey ≠ "samekey" → q ∈ dbC3.posts) :=
  C3_amended_delete_by_rkey { rkey := "samekey", offset := 7 } dbC3 (by decide)

/-- Claim C8: a Delete event whose `rkey` matches no existing `Post` row
creates no row and leaves every `Post` row unchanged, yet still records its
offset as consumed. -/
theorem C8_delete_no_match (i : DeletePostInput) (s : DBState)
    (hnone : ∀ p ∈ s.posts, p.rkey ≠ i.rkey)
    (hoff : i.offset ∉ s.consumedOffsets) :
    (unauthed_deletePost i s).posts = s.posts
    ∧ (unauthed_deletePost i s).consumedOffsets = s.consumedOffsets ++ [i.offset] := by
  rw [unauthed_deletePost_of_ok i s hoff]
  refine ⟨?_, rfl⟩
  show markDeletedByRkey i.rkey s.posts = s.posts
  unfold markDeletedByRkey
  calc s.posts.map (fun p => if p.rkey = i.rkey then { p with status := PostStatus.deleted } else p)
      = s.posts.map id := List.map_congr_left (fun p hp => by rw [if_neg (hnone p hp)]; rfl)
    _ = s.posts := List.map_id _

/-- Claim C8 witness: deleting the absent rkey `b` in the one-post store
`dbW8`. -/
theorem C8_witness :
    (unauthed_deletePost { rkey := "b", offset := 9 } dbW8).posts = dbW8.posts
    ∧ (unauthed_deletePost { rkey := "b", offset := 9 } dbW8).consumedOffsets =
        dbW8.consumedOffsets ++ [9] :=
  C8_delete_no_match { rkey := "b", offset := 9 } dbW8 (by decide) (by decide)

/-- Claim C9 counterexample: on the concrete Create event `iW1`, a
notification failure in which `getBlueskyProfile` rejects is neither logged
nor swallowed — the call throws — even though the committed rows are
intact; so "a notification failure is logged and swallowed" fails on the
code. -/
theorem C9_counterexample :
    (unauthed_createPost_run iW1 WebhookEnv.profileThrow dbEmpty).thrown.isSome = true
    ∧ (unauthed_createPost_run iW1 WebhookEnv.profileThrow dbEmpty).loggedErrors = []
    ∧ (unauthed_createPost_run iW1 WebhookEnv.profileThrow dbEmpty).db = s1W9 := by
  decide

/-- Claim C9 as amended: the webhook notification of `unauthed_createPost`
runs only after the transaction committed, and no notification outcome ever
changes the database state; a webhook response that is not `ok` is logged
and swallowed (the call returns normally with the committed rows); a
rejected profile lookup or webhook fetch is instead thrown out of the call,
unlogged and unswallowed, still leaving the committed rows intact. -/
theorem C9_amended_notification_independence (i : CreatePostInput) (s : DBState) :
    (∀ e1 e2 : WebhookEnv,
        (unauthed_createPost_run i e1 s).db = (unauthed_createPost_run i e2 s).db)
    ∧ (∀ env : WebhookEnv, (unauthed_createPost_run i env s).notified = true →
        createPostTx i s = Except.ok (unauthed_createPost_run i env s).db)
    ∧ (∀ s1, createPostTx i s = Except.ok s1 →
        unauthed_createPost_run i WebhookEnv.respFail s =
          { db := s1, notified := true,
            loggedErrors := ["Failed to alert of new post"], thrown := none })
    ∧ (∀ s1, createPostTx i s = Except.ok s1 →
        (unauthed_createPost_run i WebhookEnv.fetchThrow s).thrown.isSome = true
        ∧ (unauthed_createPost_run i WebhookEnv.fetchThrow s).loggedErrors = []
        ∧ (unauthed_createPost_run i WebhookEnv.fetchThrow s).db = s1)
    ∧ (∀ e, createPostTx i s = Except.error e →
        unauthed_createPost_run i WebhookEnv.respOk s =
          { db := s, notified := false, loggedErrors := [], thrown := some e }) := by
  cases h : createPostTx i s with
  | error m =>
    refine ⟨?_, ?_, ?_, ?_, ?_⟩
    · intro e1 e2
      simp [unauthed_createPost_run, h]
    · intro env hn
      simp [unauthed_createPost_run, h] at hn
    · intro s1 hs1
      exact Except.noConfusion hs1
    · intro s1 hs1
      exact Except.noConfusion hs1
    · intro e he
      injection he with hee
      subst hee
      simp [unauthed_createPost_run, h]
  | ok s1 =>
    refine ⟨?_, ?_, ?_, ?_, ?_⟩
    · intro e1 e2
      cases e1 <;> cases e2 <;> simp [unauthed_createPost_run, h]
    · intro env hn
      cases env with
      | noUrl => simp [unauthed_createPost_run, h] at hn
      | profileThrow => simp [unauthed_createPost_run, h] at hn
      | fetchThrow => simp [unauthed_createPost_run, h]
      | respOk => simp [unauthed_createPost_run, h]
      | respFail => simp [unauthed_createPost_run, h]
    · intro t ht
      injection ht with htt
      subst htt
      simp [unauthed_createPost_run, h]
    · intro t ht
      injection ht with htt
      subst htt
      simp [unauthed_createPost_run, h]
    · intro e he
      exact Except.noConfusion he

/-- Claim C9 (amended) witness: the concrete Create event `iW1` on the
empty store, with a failing webhook response (logged, swallowed, rows
intact) and with a rejected webhook fetch (thrown, rows intact). -/
theorem C9_amended_witness :
    (unauthed_createPost_run iW1 WebhookEnv.respFail dbEmpty =
        { db := s1W9, notified := true,
          loggedErrors := ["Failed to alert of new post"], thrown := none })
    ∧ ((unauthed_createPost_run iW1 WebhookEnv.fetchThrow dbEmpty).thrown.isSome = true
        ∧ (unauthed_createPost_run iW1 WebhookEnv.fetchThrow dbEmpty).loggedErrors = []
        ∧ (unauthed_createPost_run iW1 WebhookEnv.fetchThrow dbEmpty).db = s1W9) :=
  ⟨(C9_amended_notification_independence iW1 dbEmpty).2.2.1 s1W9 (by rfl),
   (C9_amended_notification_independence iW1 dbEmpty).2.2.2.1 s1W9 (by rfl)⟩

/-- Claim C4: after `unauthed_deletePost` is applied for the rkey of an
existing live post, the post's row still exists with status `deleted`, it no
longer appears in `getFrontpagePosts` (which returns only live posts), and
`getPost` still returns it with status `deleted`. -/
theorem C4_soft_delete_lifecycle (user : Option String) (now : ℚ) (s : DBState)
    (d r : String) (off : Nat)
    (hexists : ∃ p ∈ s.posts, p.authorDid = d ∧ p.rkey = r ∧ p.status = PostStatus.live)
    (hoff : off ∉ s.consumedOffsets) :
    (∃ p ∈ (unauthed_deletePost { rkey := r, offset := off } s).posts,
        p.authorDid = d ∧ p.rkey = r ∧ p.status = PostStatus.deleted)
    ∧ (∀ o ∈ getFrontpagePosts now user (unauthed_deletePost { rkey := r, offset := off } s),
        ¬(o.authorDid = d ∧ o.rkey = r))
    ∧ (∃ o, getPost user d r (unauthed_deletePost { rkey := r, offset := off } s) = some o
        ∧ o.status = PostStatus.deleted) := by
  rcases hexists with ⟨p0, hp0, hd0, hr0, _⟩
  have ht := unauthed_deletePost_of_ok { rkey := r, offset := off } s hoff
  refine ⟨?_, ?_, ?_⟩
  · rw [ht]
    exact ⟨{ p0 with status := PostStatus.deleted },
      markDeletedByRkey_mem r s.posts p0 hp0 hr0,
      by simpa using hd0, by simpa using hr0, rfl⟩
  · intro o ho hcon
    rw [ht] at ho
    rcases (mem_getFrontpagePosts now user _ o).1 ho with ⟨q, hq, hlive, hfo⟩
    have hq2 : q ∈ markDeletedByRkey r s.posts := hq
    have hqr : q.rkey = r := by
      have hqo : o.rkey = q.rkey := by rw [← hfo]; rfl
      rw [hqo] at hcon
      exact hcon.2
    have hdel := markDeletedByRkey_status r s.posts q hq2 hqr
    rw [hdel] at hlive
    cases hlive
  · have hpair : ∃ p ∈ (unauthed_deletePost { rkey := r, offset := off } s).posts,
        p.authorDid = d ∧ p.rkey = r := by
      rw [ht]
      exact ⟨{ p0 with status := PostStatus.deleted },
        markDeletedByRkey_mem r s.posts p0 hp0 hr0,
        by simpa using hd0, by simpa using hr0⟩
    rcases getPost_isSome user d r _ hpair with ⟨o, ho⟩
    refine ⟨o, ho, ?_⟩
    rcases getPost_eq_some_elim user d r _ o ho with ⟨q, hq, _, hqr, _, hstat, _⟩
    rw [hstat]
    refine markDeletedByRkey_status r s.posts q ?_ hqr
    rw [ht] at hq
    exact hq

/-- Claim C4 witness: deleting Alice's live post `3k2x` in the one-post
store `dbW4`. -/
theorem C4_witness :
    (∃ p ∈ (unauthed_deletePost { rkey := "3k2x", offset := 11 } dbW4).posts,
        p.authorDid = "did:plc:alice" ∧ p.rkey = "3k2x" ∧ p.status = PostStatus.deleted)
    ∧ (∀ o ∈ getFrontpagePosts 2 none (unauthed_deletePost { rkey := "3k2x", offset := 11 } dbW4),
        ¬(o.authorDid = "did:plc:alice" ∧ o.rkey = "3k2x"))
    ∧ (∃ o, getPost none "did:plc:alice" "3k2x"
          (unauthed_deletePost { rkey := "3k2x", offset := 11 } dbW4) = some o
        ∧ o.status = PostStatus.deleted) :=
  C4_soft_delete_lifecycle none 2 dbW4 "did:plc:alice" "3k2x" 11
    ⟨pW4, by decide, by decide, by decide, by decide⟩ (by decide)

/-- Claim C5: a post with zero `PostVote` rows reports `voteCount = 1` in
`getPost`, `getUserPosts`, and `getFrontpagePosts`, and its rank is computed
with the floored vote count 1. -/
theorem C5_zero_vote_floor (user : Option String) (now : ℚ) (s : DBState) :
    (∀ d r o, getPost user d r s = some o →
        (s.votes.filter (fun v => decide (v.postId = o.id))).length = 0 →
        o.voteCount = 1)
    ∧ (∀ d o, o ∈ getUserPosts user d s →
        (s.votes.filter (fun v => decide (v.postId = o.id))).length = 0 →
        o.voteCount = 1)
    ∧ (∀ o, o ∈ getFrontpagePosts now user s →
        (s.votes.filter (fun v => decide (v.postId = o.id))).length = 0 →
        o.voteCount = 1)
    ∧ (∀ p : PostRow, (s.votes.filter (fun v => decide (v.postId = p.id))).length = 0 →
        rank now s p = scoreSpec 1 ((hoursSince p.createdAt now : ℚ) : ℝ)) := by
  refine ⟨?_, ?_, ?_, ?_⟩
  · intro d r o ho hz
    rcases getPost_eq_some_elim user d r s o ho with ⟨p, _, _, _, hid, _, hvc⟩
    rw [hid] at hz
    rw [hvc, voteCountOpt_eq_none s p.id hz]
    rfl
  · intro d o ho hz
    rcases (mem_getUserPosts user d s o).1 ho with ⟨p, _, _, _, hfo⟩
    have hid : o.id = p.id := by rw [← hfo]; rfl
    have hvc : o.voteCount = (voteCountOpt s p.id).getD 1 := by rw [← hfo]; rfl
    rw [hid] at hz
    rw [hvc, voteCountOpt_eq_none s p.id hz]
    rfl
  · intro o ho hz
    rcases (mem_getFrontpagePosts now user s o).1 ho with ⟨p, _, _, hfo⟩
    have hid : o.id = p.id := by rw [← hfo]; rfl
    have hvc : o.voteCount = (voteCountOpt s p.id).getD 1 := by rw [← hfo]; rfl
    rw [hid] at hz
    rw [hvc, voteCountOpt_eq_none s p.id hz]
    rfl
  · intro p hz
    unfold rank scoreSpec hoursSince
    rw [voteCountOpt_eq_none s p.id hz]
    simp only [Option.getD_none, Nat.cast_one]
    push_cast
    ring_nf

/-- Claim C5 witness: the zero-vote post `pW5` in `dbW5` reports
`voteCount = 1` through every read path and in the rank numerator. -/
theorem C5_witness :
    oW5.voteCount = 1 ∧ fpW5.voteCount = 1 ∧ fpW5.voteCount = 1
    ∧ rank 1 dbW5 pW5 = scoreSpec 1 ((hoursSince pW5.createdAt 1 : ℚ) : ℝ) := by
  have h := C5_zero_vote_floor none 1 dbW5
  refine ⟨h.1 "a" "r" oW5 (by decide) (by decide), ?_, ?_, h.2.2.2 pW5 (by decide)⟩
  · exact h.2.1 "a" fpW5 ((mem_getUserPosts none "a" dbW5 fpW5).2
      ⟨pW5, by decide, by decide, by decide, by decide⟩) (by decide)
  · exact h.2.2.1 fpW5 ((mem_getFrontpagePosts 1 none dbW5 fpW5).2
      ⟨pW5, by decide, by decide, by decide⟩) (by decide)

/-- Claim C6: with nonnegative ages, equal vote counts make the younger
post rank strictly higher, equal ages make the higher-voted post rank
strictly higher, and the front-page listing is sorted by nonincreasing
rank. -/
theorem C6_ranking_monotonicity (now : ℚ) (s : DBState) (p q : PostRow)
    (hp : 0 ≤ hoursSince p.createdAt now) (hq : 0 ≤ hoursSince q.createdAt now) :
    (voteCountOpt s p.id = voteCountOpt s q.id →
        hoursSince p.createdAt now < hoursSince q.createdAt now →
        rank now s q < rank now s p)
    ∧ (p.createdAt = q.createdAt →
        (voteCountOpt s q.id).getD 1 < (voteCountOpt s p.id).getD 1 →
        rank now s q < rank now s p)
    ∧ List.Pairwise (fun a b => rank now s b ≤ rank now s a) (frontpageSorted now s) := by
  have hcast : ∀ c : ℚ, (((now : ℚ) - c) * 24 : ℚ) = hoursSince c now := by
    intro c
    unfold hoursSince
    ring
  have hpa : (0 : ℝ) ≤ ((now : ℝ) - (p.createdAt : ℝ)) * 24 := by
    have := hp
    rw [← hcast p.createdAt] at this
    exact_mod_cast this
  have hqa : (0 : ℝ) ≤ ((now : ℝ) - (q.createdAt : ℝ)) * 24 := by
    have := hq
    rw [← hcast q.createdAt] at this
    exact_mod_cast this
  refine ⟨?_, ?_, ?_⟩
  · intro hv hlt
    unfold rank
    rw [← hv]
    have hab : ((now : ℝ) - (p.createdAt : ℝ)) * 24 < ((now : ℝ) - (q.createdAt : ℝ)) * 24 := by
      rw [← hcast p.createdAt, ← hcast q.createdAt] at hlt
      exact_mod_cast hlt
    have hden : (((now : ℝ) - (p.createdAt : ℝ)) * 24 + 2) ^ (1.8 : ℝ)
        < (((now : ℝ) - (q.createdAt : ℝ)) * 24 + 2) ^ (1.8 : ℝ) := by
      apply Real.rpow_lt_rpow (by linarith) (by linarith) (by norm_num)
    have hnum : (0 : ℝ) < (((voteCountOpt s p.id).getD 1 : ℕ) : ℝ) := by
      have := one_le_voteCountOpt_getD s p.id
      exact_mod_cast Nat.lt_of_lt_of_le Nat.zero_lt_one this
    exact div_lt_div_of_pos_left hnum
      (Real.rpow_pos_of_pos (by linarith) _) hden
  · intro hc hlt
    unfold rank
    rw [hc]
    have hden : (0 : ℝ) < (((now : ℝ) - (q.createdAt : ℝ)) * 24 + 2) ^ (1.8 : ℝ) :=
      Real.rpow_pos_of_pos (by linarith) _
    exact (div_lt_div_iff_of_pos_right hden).2 (by exact_mod_cast hlt)
  · have htrans : ∀ a b c : PostRow,
        (@decide (rank now s b ≤ rank now s a) (Real.decidableLE _ _)) = true →
        (@decide (rank now s c ≤ rank now s b) (Real.decidableLE _ _)) = true →
        (@decide (rank now s c ≤ rank now s a) (Real.decidableLE _ _)) = true := by
      intro a b c hab hbc
      have h1 := of_decide_eq_true hab
      have h2 := of_decide_eq_true hbc
      exact decide_eq_true (le_trans h2 h1)
    have htotal : ∀ a b : PostRow,
        ((@decide (rank now s b ≤ rank now s a) (Real.decidableLE _ _))
          || (@decide (rank now s a ≤ rank now s b) (Real.decidableLE _ _))) = true := by
      intro a b
      rcases le_total (rank now s b) (rank now s a) with h | h
      · simp [decide_eq_true h]
      · simp [decide_eq_true h]
    have hpair := @List.sorted_mergeSort PostRow
      (fun a b => @decide (rank now s b ≤ rank now s a) (Real.decidableLE _ _))
      htrans htotal (livePosts s)
    exact hpair.imp (fun h => of_decide_eq_true h)

/-- Claim C6 witness: in `dbW6` at query time 1, the younger zero-vote post
`p61` outranks the older zero-vote post `p62`, and the two-vote post `p63`
outranks the equally-aged zero-vote post `p61`. -/
theorem C6_witness :
    rank 1 dbW6 p62 < rank 1 dbW6 p61 ∧ rank 1 dbW6 p61 < rank 1 dbW6 p63 := by
  have h1 := C6_ranking_monotonicity 1 dbW6 p61 p62
    (by norm_num [hoursSince, p61]) (by norm_num [hoursSince, p62])
  have h2 := C6_ranking_monotonicity 1 dbW6 p63 p61
    (by norm_num [hoursSince, p63]) (by norm_num [hoursSince, p61])
  exact ⟨h1.1 (by decide) (by norm_num [hoursSince, p61, p62]),
         h2.2.1 (by decide) (by decide)⟩

/-- Claim C7: the `rank` SQL expression equals the spec's formula
`voteCount / ((hoursSince(createdAt, now) + 2) ^ 1.8)` with the vote count
floored at 1, as a function of the query time `now`. -/
theorem C7_rank_formula (now : ℚ) (s : DBState) (p : PostRow) :
    rank now s p =
      scoreSpec (((voteCountOpt s p.id).getD 1 : ℕ) : ℝ) ((hoursSince p.createdAt now : ℚ) : ℝ) := by
  unfold rank scoreSpec hoursSince
  push_cast
  ring_nf

end Unravel
